import Mathlib

/-!
Verification development for the Persian Carpets backend
(src/main.py, src/schemas.py): a FastAPI catalog/order/review service
backed by a MongoDB-style document store.

Numbers: Python floats are modelled as rationals (ℚ); all claims here
concern order/range comparisons, not float rounding.  Python ints are
modelled as ℤ (unbounded, as in Python).

The store adapter (database.py: `db`, `create_document`, `get_documents`)
is not part of the source tree; only its callers are.  Its operations are
modelled from the spec, §4.1, and are marked as such in their doc
comments.
-/

namespace Carpets

/-- Pydantic model `Carpet` from src/schemas.py (fields and defaults as
declared there).  Range constraints (`ge`/`le` of `Field`) are in
`Carpet.validates` below. -/
structure Carpet where
  title : String
  description : Option String := none
  region : String
  style : String
  size_cm : String
  materials : List String := []
  knot_density_kpsi : Option Int := none
  age_years : Option Int := none
  price_usd : ℚ
  images : List String := []
  colors : List String := []
  rarity_score : Option ℚ := none
  is_featured : Bool := false
  in_stock : Bool := true
deriving DecidableEq

/-- Pydantic model `Review` from src/schemas.py. -/
structure Review where
  carpet_id : String
  name : String
  rating : Int
  comment : Option String := none
deriving DecidableEq

/-- Pydantic model `OrderItem` from src/schemas.py. -/
structure OrderItem where
  carpet_id : String
  quantity : Int := 1
  price_usd : ℚ
deriving DecidableEq

/-- Pydantic model `Order` from src/schemas.py. -/
structure Order where
  customer_name : String
  customer_email : String
  customer_phone : Option String := none
  shipping_address : String
  items : List OrderItem
  subtotal_usd : ℚ
  upsell_ids : List String := []
  notes : Option String := none
deriving DecidableEq

/-- The range constraints pydantic enforces on `Carpet`
(src/schemas.py lines 28-46): `price_usd` has `ge=0`, `rarity_score`
has `ge=0, le=1`.  Note that `knot_density_kpsi` and `age_years` carry
no `ge`/`le` argument, so no range constraint applies to them. -/
def Carpet.validates (c : Carpet) : Bool :=
  decide (0 ≤ c.price_usd) &&
    (match c.rarity_score with
     | none => true
     | some r => decide (0 ≤ r) && decide (r ≤ 1))

/-- The range constraints pydantic enforces on `Review`
(src/schemas.py line 55): `rating` has `ge=1, le=5`. -/
def Review.validates (r : Review) : Bool :=
  decide (1 ≤ r.rating) && decide (r.rating ≤ 5)

/-- The range constraints pydantic enforces on `OrderItem`
(src/schemas.py line 60): `quantity` has `ge=1`. -/
def OrderItem.validates (i : OrderItem) : Bool :=
  decide (1 ≤ i.quantity)

/-- The constraints pydantic enforces on `Order` (src/schemas.py lines
63-75): nested `OrderItem`s are validated; the `items` list itself has
no minimum-length constraint. -/
def Order.validates (o : Order) : Bool :=
  o.items.all OrderItem.validates

/-! ## Document store

Modelled from the spec: database.py is not under src/.  Per spec §4.1
and §6, the store holds named collections of documents keyed by
store-assigned identifiers; here each entity collection is a list of
(identifier, entity) pairs, newest first, plus a counter from which
fresh identifiers are minted. -/

/-- Modelled from the spec: the document store state (database.py is not
under src/).  Collections `carpet`, `order`, `review` per spec §6
"Persisted layout"; `nextId` mints store-assigned identifiers. -/
structure Store where
  carpets : List (String × Carpet) := []
  orders : List (String × Order) := []
  reviews : List (String × Review) := []
  nextId : Nat := 0
deriving DecidableEq

/-- Hexadecimal digit character for `d < 16` (lowercase, as `str(ObjectId)`
renders). -/
def hexDigitChar (d : Nat) : Char :=
  if d < 10 then Char.ofNat (48 + d) else Char.ofNat (87 + d)

/-- `k` hexadecimal digit characters encoding `n` (least significant
first). -/
def hexChars : Nat → Nat → List Char
  | 0, _ => []
  | k + 1, n => hexDigitChar (n % 16) :: hexChars k (n / 16)

/-- Modelled from the spec: the store-assigned identifier, rendered "as
an opaque string" (spec §4.1); BSON ObjectIds render as 24 hex
characters (spec §8: "24-hex-like-string"). -/
def mintId (n : Nat) : String := String.mk (hexChars 24 n)

/-- A hexadecimal character: a digit, `a`-`f`, or `A`-`F`. -/
def isHexChar (ch : Char) : Bool :=
  ch.isDigit || (97 ≤ ch.toNat && ch.toNat ≤ 102) ||
    (65 ≤ ch.toNat && ch.toNat ≤ 70)

/-- `bson.ObjectId(s)` accepts exactly 24-character hex strings and
raises `InvalidId` otherwise (used by `get_carpet`, src/main.py
line 91). -/
def validObjectId (s : String) : Bool :=
  s.length == 24 && s.data.all isHexChar

/-- Modelled from the spec: `insert(collection, document) -> id` for the
carpet collection (spec §4.1): persists one new document and returns the
newly assigned identifier as an opaque string. -/
def Store.insertCarpet (s : Store) (c : Carpet) : Store × String :=
  let i := mintId s.nextId
  ({ s with carpets := (i, c) :: s.carpets, nextId := s.nextId + 1 }, i)

/-- Modelled from the spec: `insert` for the order collection (spec
§4.1). -/
def Store.insertOrder (s : Store) (o : Order) : Store × String :=
  let i := mintId s.nextId
  ({ s with orders := (i, o) :: s.orders, nextId := s.nextId + 1 }, i)

/-- Modelled from the spec: `insert` for the review collection (spec
§4.1). -/
def Store.insertReview (s : Store) (r : Review) : Store × String :=
  let i := mintId s.nextId
  ({ s with reviews := (i, r) :: s.reviews, nextId := s.nextId + 1 }, i)

/-! ## Catalog query (src/main.py lines 55-86) -/

/-- Pydantic model `CatalogQuery` from src/main.py lines 55-59. -/
structure CatalogQuery where
  region : Option String := none
  style : Option String := none
  max_price : Option ℚ := none
  featured_only : Bool := false
deriving DecidableEq

/-- The Mongo filter document built by `query_carpets` (src/main.py lines
72-80): each field is the predicate added for the corresponding key, or
`none` when no key was added. -/
structure Filter where
  region : Option String := none
  style : Option String := none
  price_lte : Option ℚ := none
  is_featured : Option Bool := none
deriving DecidableEq

/-- Python truthiness of an `Optional[str]`: `None` and `""` are falsy. -/
def strTruthy : Option String → Bool
  | none => false
  | some s => !(s == "")

/-- Filter construction from `query_carpets` (src/main.py lines 72-80):
`if q.region:` / `if q.style:` test truthiness (so an empty string adds
no key), `if q.max_price is not None:` tests presence, and
`if q.featured_only:` adds `is_featured: True` only when true. -/
def buildFilter (q : CatalogQuery) : Filter :=
  { region := if strTruthy q.region then q.region else none
    style := if strTruthy q.style then q.style else none
    price_lte := match q.max_price with
      | some m => some m
      | none => none
    is_featured := if q.featured_only then some true else none }

/-- Modelled from the spec: a document matches a filter iff it satisfies
the conjunction of the field predicates present in it (spec §4.1 `find`,
glossary "Filter: a conjunction of field predicates"). -/
def matchesFilter (f : Filter) (c : Carpet) : Bool :=
  (match f.region with | none => true | some r => c.region == r) &&
    (match f.style with | none => true | some st => c.style == st) &&
    (match f.price_lte with | none => true | some m => decide (c.price_usd ≤ m)) &&
    (match f.is_featured with | none => true | some b => c.is_featured == b)

/-- Modelled from the spec: `find(collection, filter, limit)` on the
carpet collection "returns up to `limit` matching documents in
store-native order" (spec §4.1); used by `get_documents` in
`query_carpets`. -/
def Store.findCarpets (s : Store) (f : Filter) (limit : Nat) :
    List (String × Carpet) :=
  (s.carpets.filter (fun p => matchesFilter f p.2)).take limit

/-- Modelled from the spec: `count(collection, filter) -> integer`
with the empty filter, i.e. `db["carpet"].count_documents({})` in
`seed_demo_data` (spec §4.1: "used to check emptiness before
seeding"). -/
def Store.countCarpets (s : Store) : Nat := s.carpets.length

/-- Modelled from the spec: `find_one_by_id(collection, id)` on the
carpet collection, i.e. `db["carpet"].find_one({"_id": ObjectId(id)})`
(spec §4.1): "looks up a single document by identifier". -/
def Store.findCarpetById (s : Store) (i : String) : Option Carpet :=
  match s.carpets.find? (fun p => p.1 == i) with
  | some p => some p.2
  | none => none

/-! ## Request handlers (src/main.py)

FastAPI validates a typed request body against its pydantic model before
the handler body runs; a payload failing the model's constraints is
rejected with client-error status 422 and the handler body (hence any
store call in it) is never reached.  Store availability is a parameter
`storeUp`: when false, the store call inside the handler's `try` raises
and the `except` branch runs (spec §4.1: insert "fails with StoreError
if the underlying connection is unavailable"). -/

/-- Outcome of a create endpoint (`create_carpet`, `create_order`,
`create_review`, src/main.py): body-validation rejection (status 422,
before the handler body), success `{"id": ...}` (status 200), or the
`except` branch `HTTPException(status_code=500, ...)`. -/
inductive CreateResult where
  | validationError
  | created (i : String)
  | storeError
deriving DecidableEq

/-- HTTP status of a create-endpoint outcome. -/
def CreateResult.status : CreateResult → Nat
  | .validationError => 422
  | .created _ => 200
  | .storeError => 500

/-- `create_carpet` (src/main.py lines 61-67) together with the
framework's body-validation step: an invalid `Carpet` payload is
rejected before the handler body; otherwise `create_document("carpet",
carpet)` runs inside `try`, and any store failure becomes a 500. -/
def create_carpet (s : Store) (storeUp : Bool) (c : Carpet) :
    Store × CreateResult :=
  if c.validates then
    if storeUp then
      let r := s.insertCarpet c
      (r.1, .created r.2)
    else (s, .storeError)
  else (s, .validationError)

/-- `create_order` (src/main.py lines 99-105) with the framework's
body-validation step, as for `create_carpet`. -/
def create_order (s : Store) (storeUp : Bool) (o : Order) :
    Store × CreateResult :=
  if o.validates then
    if storeUp then
      let r := s.insertOrder o
      (r.1, .created r.2)
    else (s, .storeError)
  else (s, .validationError)

/-- `create_review` (src/main.py lines 107-113) with the framework's
body-validation step, as for `create_carpet`. -/
def create_review (s : Store) (storeUp : Bool) (r : Review) :
    Store × CreateResult :=
  if r.validates then
    if storeUp then
      let p := s.insertReview r
      (p.1, .created p.2)
    else (s, .storeError)
  else (s, .validationError)

/-- Outcome of `query_carpets`: the returned carpet list (ids already
strings in this model) or the `except` branch's 500. -/
inductive QueryResult where
  | ok (docs : List (String × Carpet))
  | storeError
deriving DecidableEq

/-- `query_carpets` (src/main.py lines 69-86): builds the filter from
the `CatalogQuery`, calls `get_documents("carpet", filt, limit=50)`,
stringifies each `_id`, and maps any failure to a 500. -/
def query_carpets (s : Store) (storeUp : Bool) (q : CatalogQuery) :
    QueryResult :=
  if storeUp then .ok (s.findCarpets (buildFilter q) 50)
  else .storeError

/-- Outcome of `get_carpet`: the document (id and fields) with status
200, or an error status.  In the source every failure inside the `try`
— including the `HTTPException(404)` raised for a missing document —
is caught by `except Exception` and re-raised as a 400. -/
inductive GetResult where
  | ok (i : String) (c : Carpet)
  | error (status : Nat)
deriving DecidableEq

/-- `get_carpet` (src/main.py lines 88-97): `ObjectId(carpet_id)` raises
on a malformed id, caught by the `except` as a 400; a well-formed id
with no matching document raises `HTTPException(404)` inside the `try`,
which the same `except Exception` catches and turns into a 400; a found
document is returned with its `_id` stringified. -/
def get_carpet (s : Store) (carpet_id : String) : GetResult :=
  if validObjectId carpet_id then
    match s.findCarpetById carpet_id with
    | some c => .ok carpet_id c
    | none => .error 400
  else .error 400

/-! ## Seed routine (src/main.py lines 116-181) -/

/-- First sample carpet in `seed_demo_data` (src/main.py lines
122-139). -/
def isfahanSample : Carpet :=
  { title := "Isfahan Silk Medallion"
    description := some "Fine silk-on-silk with central medallion and arabesque borders."
    region := "Isfahan"
    style := "medallion"
    size_cm := "200 x 300"
    materials := ["silk"]
    knot_density_kpsi := some 650
    age_years := some 15
    price_usd := 48000
    images := ["https://images.unsplash.com/photo-1545239351-1141bd82e8a6?q=80&w=1600&auto=format&fit=crop"]
    colors := ["crimson", "ivory", "navy"]
    rarity_score := some (mkRat 92 100)
    is_featured := true
    in_stock := true }

/-- Second sample carpet in `seed_demo_data` (src/main.py lines
140-157). -/
def tabrizSample : Carpet :=
  { title := "Tabriz Garden of Paradise"
    description := some "Wool and silk blend with garden panels and cypress trees."
    region := "Tabriz"
    style := "garden"
    size_cm := "240 x 340"
    materials := ["wool", "silk"]
    knot_density_kpsi := some 400
    age_years := some 25
    price_usd := 28000
    images := ["https://images.unsplash.com/photo-1618220179428-22790b461013?q=80&w=1600&auto=format&fit=crop"]
    colors := ["emerald", "gold", "brick"]
    rarity_score := some (mkRat 8 10)
    is_featured := true
    in_stock := true }

/-- Third sample carpet in `seed_demo_data` (src/main.py lines
158-175). -/
def kashanSample : Carpet :=
  { title := "Kashan Royal Court"
    description := some "Antique wool masterpiece with courtly motifs and deep palette."
    region := "Kashan"
    style := "pictorial"
    size_cm := "180 x 270"
    materials := ["wool"]
    knot_density_kpsi := some 300
    age_years := some 70
    price_usd := 36000
    images := ["https://images.unsplash.com/photo-1545239350-48bf079fb38e?q=80&w=1600&auto=format&fit=crop"]
    colors := ["ruby", "indigo", "beige"]
    rarity_score := some (mkRat 86 100)
    is_featured := false
    in_stock := true }

/-- The fixed sample set of `seed_demo_data` (src/main.py lines
121-176). -/
def sampleCarpets : List Carpet := [isfahanSample, tabrizSample, kashanSample]

/-- Outcome of `seed_demo_data`: the `{status, message}` body or the
`except` branch's 500. -/
inductive SeedResult where
  | ok (status message : String)
  | storeError
deriving DecidableEq

/-- `seed_demo_data` (src/main.py lines 116-181): if
`db["carpet"].count_documents({}) > 0` it returns at once with
"Catalog already seeded"; otherwise it inserts the three samples via
`create_document("carpet", s)` and reports "Seeded sample carpets". -/
def seed_demo_data (s : Store) (storeUp : Bool) : Store × SeedResult :=
  if storeUp then
    if s.countCarpets > 0 then
      (s, .ok "ok" "Catalog already seeded")
    else
      let s3 := sampleCarpets.foldl (fun acc c => (acc.insertCarpet c).1) s
      (s3, .ok "ok" "Seeded sample carpets")
  else (s, .storeError)

/-! ## Diagnostics endpoint (src/main.py lines 25-52) -/

/-- State of the global `db` object as `test_database` observes it:
`db is None`, or a connected handle with an optional `name` attribute
and the outcome of `list_collection_names()` (a raised exception's
message, or the list of names). -/
inductive DbState where
  | noDb
  | connected (name : Option String) (listResult : String ⊕ List String)

/-- The response dictionary of `test_database` (src/main.py lines
27-34). -/
structure TestResponse where
  backend : String
  database : String
  database_url : Option String
  database_name : Option String
  connection_status : String
  collections : List String
deriving DecidableEq

/-- `test_database` (src/main.py lines 25-52): starts from the default
response, upgrades fields as checks succeed, truncates the collection
sample with `collections[:10]`, and converts the inner
`list_collection_names` failure into the descriptive
"⚠️  Connected but Error: " text with the message cut to 50
characters.  Every branch returns the response dictionary. -/
def test_database (urlSet : Bool) : DbState → TestResponse
  | .noDb =>
      { backend := "✅ Running"
        database := "⚠️  Available but not initialized"
        database_url := none
        database_name := none
        connection_status := "Not Connected"
        collections := [] }
  | .connected nm lr =>
      let r : TestResponse :=
        { backend := "✅ Running"
          database := "✅ Available"
          database_url := some (if urlSet then "✅ Set" else "❌ Not Set")
          database_name := some (nm.getD "✅ Connected")
          connection_status := "Connected"
          collections := ([] : List String) }
      match lr with
      | .inr names =>
          { r with collections := names.take 10
                   database := "✅ Connected & Working" }
      | .inl e =>
          { r with database := "⚠️  Connected but Error: " ++ e.take 50 }

/-! ## Store-operation traces

One list per handler recording the read/write store calls the handler
body attempts, read off the same source lines as the handlers above
(spec §5 speaks of reads and writes "against the store" per
request). -/

/-- A single store call: a read (find / find-one / count /
list-collection-names) or a write (insert). -/
inductive StoreOp where
  | read
  | write
deriving DecidableEq

/-- Store calls of `read_root` (src/main.py lines 21-23): none. -/
def read_root_ops : List StoreOp := []

/-- Store calls of `test_database`: one `list_collection_names` read
when `db` is not `None`, none otherwise. -/
def test_database_ops : DbState → List StoreOp
  | .noDb => []
  | .connected _ _ => [.read]

/-- Store calls of `create_carpet`: one `create_document` insert,
attempted only when the body passed validation. -/
def create_carpet_ops (c : Carpet) : List StoreOp :=
  if c.validates then [.write] else []

/-- Store calls of `create_order`: as for `create_carpet`. -/
def create_order_ops (o : Order) : List StoreOp :=
  if o.validates then [.write] else []

/-- Store calls of `create_review`: as for `create_carpet`. -/
def create_review_ops (r : Review) : List StoreOp :=
  if r.validates then [.write] else []

/-- Store calls of `query_carpets`: one `get_documents` read. -/
def query_carpets_ops : List StoreOp := [.read]

/-- Store calls of `get_carpet`: one `find_one` read, unless
`ObjectId(carpet_id)` already raised. -/
def get_carpet_ops (carpet_id : String) : List StoreOp :=
  if validObjectId carpet_id then [.read] else []

/-- Store calls of `seed_demo_data`: the `count_documents` read always;
when the count is zero and the store is up, the loop then attempts
three `create_document` inserts. -/
def seed_demo_data_ops (s : Store) (storeUp : Bool) : List StoreOp :=
  if storeUp then
    if s.countCarpets > 0 then [.read]
    else [.read, .write, .write, .write]
  else [.read]

/-! ## Helper lemmas -/

lemma hexChars_length (k n : Nat) : (hexChars k n).length = k := by
  induction k generalizing n with
  | zero => rfl
  | succ k ih => simp [hexChars, ih]

lemma isHexChar_hexDigitChar (d : Nat) (h : d < 16) :
    isHexChar (hexDigitChar d) = true := by
  interval_cases d <;> decide

lemma hexChars_all_hex (k n : Nat) : (hexChars k n).all isHexChar = true := by
  induction k generalizing n with
  | zero => rfl
  | succ k ih =>
      simp [hexChars, List.all_cons, ih,
        isHexChar_hexDigitChar _ (Nat.mod_lt _ (by norm_num))]

lemma validObjectId_mintId (n : Nat) : validObjectId (mintId n) = true := by
  have h1 : (hexChars 24 n).length = 24 := hexChars_length 24 n
  have h2 : (hexChars 24 n).all isHexChar = true := hexChars_all_hex 24 n
  simp [validObjectId, mintId, String.length, h1, h2]

lemma findCarpetById_insert_self (s : Store) (c : Carpet) :
    ((s.insertCarpet c).1.findCarpetById (s.insertCarpet c).2) = some c := by
  simp [Store.insertCarpet, Store.findCarpetById, List.find?_cons_of_pos]

lemma matchesFilter_spec (f : Filter) (c : Carpet)
    (h : matchesFilter f c = true) :
    (∀ r, f.region = some r → c.region = r) ∧
    (∀ t, f.style = some t → c.style = t) ∧
    (∀ m, f.price_lte = some m → c.price_usd ≤ m) ∧
    (∀ b, f.is_featured = some b → c.is_featured = b) := by
  unfold matchesFilter at h
  obtain ⟨fr, fs, fp, ff⟩ := f
  simp only [Bool.and_eq_true] at h
  obtain ⟨⟨⟨h1, h2⟩, h3⟩, h4⟩ := h
  refine ⟨?_, ?_, ?_, ?_⟩ <;> intro x hx <;> subst hx <;>
    simp_all [beq_iff_eq]

/-! ## Claim C1: catalog query semantics -/

/-- The empty store (fresh database). -/
def emptyStore : Store := {}

/-- A one-carpet store for the C1 counterexample. -/
def c1Store : Store := { carpets := [(mintId 0, tabrizSample)], nextId := 1 }

/-- A query whose `region` is provided but equal to the empty string. -/
def c1EmptyRegionQuery : CatalogQuery := { region := some "" }

/-- C1 (counterexample): the claim says the filter applies "region
equality if region is provided", but `query_carpets` tests Python
truthiness (`if q.region:`), so a provided empty-string region adds no
constraint: the query with `region = some ""` returns a carpet whose
region is `"Tabriz" ≠ ""`. -/
theorem c1_counterexample :
    c1EmptyRegionQuery.region = some "" ∧
    query_carpets c1Store true c1EmptyRegionQuery =
      QueryResult.ok [(mintId 0, tabrizSample)] ∧
    tabrizSample.region ≠ "" :=
  ⟨rfl, rfl, by decide⟩

/-- C1 (amended): for every `CatalogQuery`, `query_carpets` applies
exactly the conjunction of the provided-and-truthy constraints — region
equality if region is provided non-empty, style equality if style is
provided non-empty, `price_usd ≤ max_price` if max_price is provided,
`is_featured = true` only when `featured_only` is true; every returned
carpet satisfies them, the result size never exceeds 50, and an
all-absent query applies no predicate and returns up to 50 carpets. -/
theorem c1_query_semantics (s : Store) (q : CatalogQuery) :
    (∀ docs, query_carpets s true q = QueryResult.ok docs →
      docs.length ≤ 50 ∧
      (∀ p ∈ docs,
        (∀ r, q.region = some r → r ≠ "" → p.2.region = r) ∧
        (∀ t, q.style = some t → t ≠ "" → p.2.style = t) ∧
        (∀ m, q.max_price = some m → p.2.price_usd ≤ m) ∧
        (q.featured_only = true → p.2.is_featured = true))) ∧
    (q.region = none → q.style = none → q.max_price = none →
      q.featured_only = false →
      query_carpets s true q = QueryResult.ok (s.carpets.take 50)) := by
  constructor
  · intro docs hdocs
    have hd : s.findCarpets (buildFilter q) 50 = docs := by
      simpa [query_carpets] using hdocs
    subst hd
    constructor
    · exact List.length_take_le _ _
    · intro p hp
      have hmem : p ∈ s.carpets.filter
          (fun p => matchesFilter (buildFilter q) p.2) :=
        List.mem_of_mem_take hp
      have hmatch : matchesFilter (buildFilter q) p.2 = true :=
        (List.mem_filter.mp hmem).2
      have hs := matchesFilter_spec _ _ hmatch
      refine ⟨?_, ?_, ?_, ?_⟩
      · intro r h1 h2
        exact hs.1 r (by simp [buildFilter, strTruthy, h1, h2])
      · intro t h1 h2
        exact hs.2.1 t (by simp [buildFilter, strTruthy, h1, h2])
      · intro m h1
        exact hs.2.2.1 m (by simp [buildFilter, h1])
      · intro h1
        exact hs.2.2.2 true (by simp [buildFilter, h1])
  · intro h1 h2 h3 h4
    simp [query_carpets, Store.findCarpets, buildFilter, strTruthy,
      matchesFilter, h1, h2, h3, h4]

/-- The seeded store: the result of running `seed_demo_data` on an
empty catalog. -/
def seededStore : Store := (seed_demo_data emptyStore true).1

/-- The query of spec §8's example: `{max_price: 30000, featured_only:
true}`. -/
def exampleQuery : CatalogQuery := { max_price := some 30000, featured_only := true }

/-- Witness for C1's theorem at the seeded store and the spec §8 example
query, whose unique result is the Tabriz sample. -/
theorem c1_query_semantics_witness :
    tabrizSample.price_usd ≤ 30000 ∧ tabrizSample.is_featured = true := by
  have h := (c1_query_semantics seededStore exampleQuery).1
    [(mintId 1, tabrizSample)] (by decide)
  have hm := h.2 (mintId 1, tabrizSample) (by simp)
  exact ⟨hm.2.2.1 30000 rfl, hm.2.2.2 rfl⟩

/-! ## Claim C2: create-then-get round trip -/

/-- C2: for every valid `Carpet` payload, `create_carpet` returns the
freshly minted identifier and `get_carpet` on that identifier returns
the very same carpet value — equal to the input on every field. -/
theorem c2_create_then_get (s : Store) (c : Carpet)
    (h : c.validates = true) :
    (create_carpet s true c).2 = CreateResult.created (mintId s.nextId) ∧
    get_carpet (create_carpet s true c).1 (mintId s.nextId) =
      GetResult.ok (mintId s.nextId) c := by
  constructor
  · simp [create_carpet, h, Store.insertCarpet]
  · have hf := findCarpetById_insert_self s c
    simp only [Store.insertCarpet] at hf
    simp [create_carpet, h, get_carpet, validObjectId_mintId,
      Store.insertCarpet, hf]

/-- Witness for C2's theorem at the empty store and the Tabriz sample
carpet. -/
theorem c2_create_then_get_witness :
    tabrizSample.validates = true ∧
    ((create_carpet emptyStore true tabrizSample).2 =
        CreateResult.created (mintId 0) ∧
      get_carpet (create_carpet emptyStore true tabrizSample).1
          (mintId 0) =
        GetResult.ok (mintId 0) tabrizSample) :=
  ⟨by decide, c2_create_then_get emptyStore tabrizSample (by decide)⟩

/-! ## Claim C3: seed idempotence -/

/-- C3: `seed_demo_data` on a non-empty catalog inserts nothing and
reports "Catalog already seeded"; on an empty catalog it inserts the
fixed sample set, leaving exactly 3 documents, and a second run is a
no-op, so two runs from empty leave exactly 3 documents, not 6. -/
theorem c3_seed_idempotence (s : Store) :
    (s.countCarpets > 0 →
      seed_demo_data s true =
        (s, SeedResult.ok "ok" "Catalog already seeded")) ∧
    (s.countCarpets = 0 →
      (seed_demo_data s true).1.countCarpets = 3 ∧
      (seed_demo_data s true).2 =
        SeedResult.ok "ok" "Seeded sample carpets" ∧
      seed_demo_data (seed_demo_data s true).1 true =
        ((seed_demo_data s true).1,
          SeedResult.ok "ok" "Catalog already seeded")) := by
  constructor
  · intro h
    simp [seed_demo_data, h]
  · intro h
    have hlen : (seed_demo_data s true).1.countCarpets = 3 := by
      have h0 : s.carpets.length = 0 := h
      simp [seed_demo_data, Store.countCarpets, h0, sampleCarpets,
        Store.insertCarpet]
    refine ⟨hlen, ?_, ?_⟩
    · simp [seed_demo_data, h]
    · have hpos : (seed_demo_data s true).1.countCarpets > 0 := by
        rw [hlen]; norm_num
      set s2 := (seed_demo_data s true).1 with hs2
      simp [seed_demo_data, hpos]

/-- Witness for C3's theorem from the empty store. -/
theorem c3_seed_idempotence_witness :
    emptyStore.countCarpets = 0 ∧
    ((seed_demo_data emptyStore true).1.countCarpets = 3 ∧
      (seed_demo_data emptyStore true).2 =
        SeedResult.ok "ok" "Seeded sample carpets" ∧
      seed_demo_data (seed_demo_data emptyStore true).1 true =
        ((seed_demo_data emptyStore true).1,
          SeedResult.ok "ok" "Catalog already seeded")) :=
  ⟨rfl, (c3_seed_idempotence emptyStore).2 rfl⟩

/-! ## Claim C4: invalid payloads rejected before persistence -/

/-- C4: a `Review` with rating outside [1,5], a `Carpet` with
rarity_score outside [0,1], and an `Order` containing an item with
quantity < 1 are each rejected as validation errors; the store is
unchanged and no store call is attempted (the handler's op trace is
empty). -/
theorem c4_invalid_payloads_rejected :
    (∀ (s : Store) (u : Bool) (r : Review),
      r.rating < 1 ∨ 5 < r.rating →
      create_review s u r = (s, CreateResult.validationError) ∧
      create_review_ops r = []) ∧
    (∀ (s : Store) (u : Bool) (c : Carpet) (x : ℚ),
      c.rarity_score = some x → (x < 0 ∨ 1 < x) →
      create_carpet s u c = (s, CreateResult.validationError) ∧
      create_carpet_ops c = []) ∧
    (∀ (s : Store) (u : Bool) (o : Order) (it : OrderItem),
      it ∈ o.items → it.quantity < 1 →
      create_order s u o = (s, CreateResult.validationError) ∧
      create_order_ops o = []) := by
  refine ⟨?_, ?_, ?_⟩
  · intro s u r hr
    have hv : r.validates = false := by
      rcases hr with h | h
      · simp [Review.validates, show ¬ (1 ≤ r.rating) by omega]
      · simp [Review.validates, show ¬ (r.rating ≤ 5) by omega]
    exact ⟨by simp [create_review, hv], by simp [create_review_ops, hv]⟩
  · intro s u c x hx hr
    have hv : c.validates = false := by
      rcases hr with h | h
      · simp [Carpet.validates, hx, show ¬ (0 ≤ x) by linarith]
      · simp [Carpet.validates, hx, show ¬ (x ≤ 1) by linarith]
    exact ⟨by simp [create_carpet, hv], by simp [create_carpet_ops, hv]⟩
  · intro s u o it hit hq
    have hitv : OrderItem.validates it = false := by
      simp [OrderItem.validates, show ¬ (1 ≤ it.quantity) by omega]
    have hv : o.validates = false := by
      unfold Order.validates
      exact List.all_eq_false.mpr ⟨it, hit, by simp [hitv]⟩
    exact ⟨by simp [create_order, hv], by simp [create_order_ops, hv]⟩

/-- A review whose rating 6 lies outside [1,5]. -/
def badRatingReview : Review :=
  { carpet_id := "x", name := "Reza", rating := 6 }

/-- A carpet whose rarity_score 2 lies outside [0,1]. -/
def badRarityCarpet : Carpet :=
  { title := "T", region := "Qom", style := "plain", size_cm := "1 x 1",
    price_usd := 10, rarity_score := some 2 }

/-- An order item with quantity 0 < 1. -/
def badQuantityItem : OrderItem :=
  { carpet_id := "x", quantity := 0, price_usd := 10 }

/-- An order carrying `badQuantityItem`. -/
def badQuantityOrder : Order :=
  { customer_name := "N", customer_email := "n@example.com",
    shipping_address := "A", items := [badQuantityItem],
    subtotal_usd := 0 }

/-- Witness for C4's theorem at three concrete invalid payloads. -/
theorem c4_invalid_payloads_rejected_witness :
    (create_review emptyStore true badRatingReview =
        (emptyStore, CreateResult.validationError) ∧
      create_review_ops badRatingReview = []) ∧
    (create_carpet emptyStore true badRarityCarpet =
        (emptyStore, CreateResult.validationError) ∧
      create_carpet_ops badRarityCarpet = []) ∧
    (create_order emptyStore true badQuantityOrder =
        (emptyStore, CreateResult.validationError) ∧
      create_order_ops badQuantityOrder = []) :=
  ⟨c4_invalid_payloads_rejected.1 emptyStore true badRatingReview
      (Or.inr (by decide)),
    c4_invalid_payloads_rejected.2.1 emptyStore true badRarityCarpet 2
      rfl (Or.inr (by decide)),
    c4_invalid_payloads_rejected.2.2 emptyStore true badQuantityOrder
      badQuantityItem (by decide) (by decide)⟩

/-! ## Claim C5: knot_density_kpsi / age_years -/

/-- A carpet payload with negative `knot_density_kpsi` and
`age_years`. -/
def negFieldsCarpet : Carpet :=
  { title := "Qum Runner", region := "Qum", style := "runner",
    size_cm := "80 x 300", price_usd := 500,
    knot_density_kpsi := some (-200), age_years := some (-3) }

/-- C5 (counterexample): the claim says a negative `knot_density_kpsi`
or `age_years` is rejected at validation time, but these two `Field`s
carry no `ge=0` constraint (src/schemas.py lines 39-40): a payload with
`knot_density_kpsi = -200` and `age_years = -3` passes validation and
is persisted. -/
theorem c5_counterexample :
    negFieldsCarpet.knot_density_kpsi = some (-200) ∧
    negFieldsCarpet.age_years = some (-3) ∧
    negFieldsCarpet.validates = true ∧
    (create_carpet emptyStore true negFieldsCarpet).2 =
      CreateResult.created (mintId 0) ∧
    (create_carpet emptyStore true negFieldsCarpet).1.countCarpets = 1 := by
  refine ⟨rfl, rfl, by decide, by decide, by decide⟩

/-- C5 (amended): `knot_density_kpsi` and `age_years` are optional
integers on which validation imposes no constraint at all — `Carpet`
validation is independent of both fields, so negative values are
accepted. -/
theorem c5_no_range_constraint (c : Carpet) (k a : Option Int) :
    ({ c with knot_density_kpsi := k, age_years := a } : Carpet).validates
      = c.validates := by
  cases c
  rfl

/-! ## Claim C6: single-item lookup error collapse -/

/-- C6: `get_carpet` returns client-error status 400 both for a
malformed identifier and for a well-formed identifier with no matching
document (the 404 raised inside the `try` is caught by
`except Exception` and re-raised as 400), and every outcome is either
a 400 or the document — the handler never crashes. -/
theorem c6_get_carpet_error_collapse (s : Store) (i : String) :
    (validObjectId i = false → get_carpet s i = GetResult.error 400) ∧
    (s.findCarpetById i = none → get_carpet s i = GetResult.error 400) ∧
    (get_carpet s i = GetResult.error 400 ∨
      ∃ c, get_carpet s i = GetResult.ok i c) := by
  refine ⟨?_, ?_, ?_⟩
  · intro h
    simp [get_carpet, h]
  · intro h
    by_cases hv : validObjectId i
    · simp [get_carpet, hv, h]
    · simp [get_carpet, hv]
  · by_cases hv : validObjectId i
    · cases hfind : s.findCarpetById i with
      | none =>
          left
          simp [get_carpet, hv, hfind]
      | some c =>
          right
          exact ⟨c, by simp [get_carpet, hv, hfind]⟩
    · left
      simp [get_carpet, hv]

/-- Witness for C6's theorem: a malformed id and a well-formed but
absent id both yield 400. -/
theorem c6_get_carpet_error_collapse_witness :
    get_carpet emptyStore "not-an-objectid" = GetResult.error 400 ∧
    validObjectId "aaaaaaaaaaaaaaaaaaaaaaaa" = true ∧
    get_carpet emptyStore "aaaaaaaaaaaaaaaaaaaaaaaa" =
      GetResult.error 400 :=
  ⟨(c6_get_carpet_error_collapse emptyStore "not-an-objectid").1
      (by decide),
    by decide,
    (c6_get_carpet_error_collapse emptyStore
      "aaaaaaaaaaaaaaaaaaaaaaaa").2.1 rfl⟩

/-! ## Claim C7: create-carpet failure statuses -/

/-- A carpet payload with negative price, failing validation. -/
def badPriceCarpet : Carpet :=
  { title := "Free", region := "X", style := "y", size_cm := "1 x 1",
    price_usd := -1 }

/-- C7 (counterexample): the claim says `create_carpet` responds 500 on
validation failure, but the typed request body is validated by the
framework before the handler body runs and rejected with client-error
status 422 — not 500. -/
theorem c7_counterexample :
    badPriceCarpet.validates = false ∧
    (create_carpet emptyStore true badPriceCarpet).2.status = 422 ∧
    (create_carpet emptyStore true badPriceCarpet).2.status ≠ 500 := by
  refine ⟨by decide, by decide, by decide⟩

/-- C7 (amended): `create_carpet` responds 500 on store failure; a
payload failing `Carpet` validation is rejected with client-error
status 422 before the handler body, the store untouched in both
cases. -/
theorem c7_create_failure_statuses (s : Store) (c : Carpet) :
    (c.validates = true →
      create_carpet s false c = (s, CreateResult.storeError) ∧
      (create_carpet s false c).2.status = 500) ∧
    (c.validates = false → ∀ u,
      create_carpet s u c = (s, CreateResult.validationError) ∧
      (create_carpet s u c).2.status = 422) := by
  constructor
  · intro h
    constructor <;> simp [create_carpet, h, CreateResult.status]
  · intro h u
    constructor <;> simp [create_carpet, h, CreateResult.status]

/-- Witness for C7's amended theorem at a valid and an invalid
payload. -/
theorem c7_create_failure_statuses_witness :
    (create_carpet emptyStore false tabrizSample =
        (emptyStore, CreateResult.storeError) ∧
      (create_carpet emptyStore false tabrizSample).2.status = 500) ∧
    (create_carpet emptyStore true badPriceCarpet =
        (emptyStore, CreateResult.validationError) ∧
      (create_carpet emptyStore true badPriceCarpet).2.status = 422) :=
  ⟨(c7_create_failure_statuses emptyStore tabrizSample).1 (by decide),
    (c7_create_failure_statuses emptyStore badPriceCarpet).2
      (by decide) true⟩

/-! ## Claim C8: store calls per handler -/

/-- C8 (counterexample): the claim says every handler performs at most
one read or one write, but `seed_demo_data` on an empty catalog
performs one `count_documents` read followed by three `create_document`
writes — a four-call, read-and-write store interaction. -/
theorem c8_counterexample :
    seed_demo_data_ops emptyStore true =
      [StoreOp.read, StoreOp.write, StoreOp.write, StoreOp.write] ∧
    ¬ (seed_demo_data_ops emptyStore true).length ≤ 1 ∧
    StoreOp.read ∈ seed_demo_data_ops emptyStore true ∧
    StoreOp.write ∈ seed_demo_data_ops emptyStore true := by
  refine ⟨rfl, by decide, by decide, by decide⟩

/-- C8 (amended): every handler except `seed_demo_data` performs at
most one store call per request; `seed_demo_data` performs exactly one
read, plus three writes when the catalog is empty, and only the single
read when it is non-empty. -/
theorem c8_store_calls_per_handler :
    read_root_ops.length ≤ 1 ∧
    (∀ d, (test_database_ops d).length ≤ 1) ∧
    (∀ c : Carpet, (create_carpet_ops c).length ≤ 1) ∧
    (∀ o : Order, (create_order_ops o).length ≤ 1) ∧
    (∀ r : Review, (create_review_ops r).length ≤ 1) ∧
    query_carpets_ops.length ≤ 1 ∧
    (∀ i, (get_carpet_ops i).length ≤ 1) ∧
    (∀ s : Store,
      (seed_demo_data_ops s true).count StoreOp.read = 1 ∧
      (s.countCarpets = 0 →
        (seed_demo_data_ops s true).count StoreOp.write = 3) ∧
      (s.countCarpets > 0 →
        seed_demo_data_ops s true = [StoreOp.read])) := by
  refine ⟨by decide, ?_, ?_, ?_, ?_, by decide, ?_, ?_⟩
  · intro d
    cases d <;> simp [test_database_ops]
  · intro c
    by_cases h : c.validates <;> simp [create_carpet_ops, h]
  · intro o
    by_cases h : o.validates <;> simp [create_order_ops, h]
  · intro r
    by_cases h : r.validates <;> simp [create_review_ops, h]
  · intro i
    by_cases h : validObjectId i <;> simp [get_carpet_ops, h]
  · intro s
    refine ⟨?_, ?_, ?_⟩
    · by_cases h : s.countCarpets > 0 <;> simp [seed_demo_data_ops, h]
    · intro h
      have h0 : ¬ s.countCarpets > 0 := by omega
      simp [seed_demo_data_ops, h0]
    · intro h
      simp [seed_demo_data_ops, h]

/-- Witness for C8's amended theorem on the empty and the seeded
store. -/
theorem c8_store_calls_per_handler_witness :
    (seed_demo_data_ops emptyStore true).count StoreOp.write = 3 ∧
    seed_demo_data_ops seededStore true = [StoreOp.read] :=
  ⟨(c8_store_calls_per_handler.2.2.2.2.2.2.2 emptyStore).2.1 rfl,
    (c8_store_calls_per_handler.2.2.2.2.2.2.2 seededStore).2.2
      (by decide)⟩

/-! ## Claim C9: diagnostics endpoint never fails -/

/-- C9: `test_database` returns a diagnostic response for every store
state — the function is total over all `DbState`s, so the endpoint
never raises; a `list_collection_names` failure degrades to the
descriptive "⚠️  Connected but Error: " text with the message cut to 50
characters, and the reported collection sample never exceeds 10
entries. -/
theorem c9_diagnostics_safe (u : Bool) (d : DbState) :
    (test_database u d).collections.length ≤ 10 ∧
    (test_database u d).backend = "✅ Running" ∧
    (∀ nm e, d = DbState.connected nm (Sum.inl e) →
      (test_database u d).database =
        "⚠️  Connected but Error: " ++ e.take 50 ∧
      (test_database u d).collections = []) := by
  refine ⟨?_, ?_, ?_⟩
  · cases d with
    | noDb => simp [test_database]
    | connected nm lr =>
        cases lr with
        | inl e => simp [test_database]
        | inr names =>
            simp [test_database, List.length_take_le 10 names]
  · cases d with
    | noDb => rfl
    | connected nm lr => cases lr <;> rfl
  · intro nm e hd
    subst hd
    simp [test_database]

/-- Witness for C9's theorem at a failing store state. -/
theorem c9_diagnostics_safe_witness :
    (test_database true (DbState.connected none (Sum.inl "boom"))).database =
      "⚠️  Connected but Error: " ++ "boom".take 50 ∧
    (test_database true
      (DbState.connected none (Sum.inl "boom"))).collections = [] :=
  (c9_diagnostics_safe true (DbState.connected none (Sum.inl "boom"))).2.2
    none "boom" rfl

/-! ## Claim C10: empty order accepted -/

/-- C10: an `Order` whose `items` list is empty passes validation —
`items` carries no minimum-length constraint — and `create_order`
persists it and returns the new identifier. -/
theorem c10_empty_items_accepted (s : Store) (o : Order)
    (h : o.items = []) :
    o.validates = true ∧
    create_order s true o =
      ({ s with
          orders := (mintId s.nextId, o) :: s.orders,
          nextId := s.nextId + 1 },
        CreateResult.created (mintId s.nextId)) := by
  have hv : o.validates = true := by simp [Order.validates, h]
  exact ⟨hv, by simp [create_order, hv, Store.insertOrder]⟩

/-- An order with no items but all required fields present. -/
def emptyItemsOrder : Order :=
  { customer_name := "Ada", customer_email := "ada@example.com",
    shipping_address := "1 Main St", items := [], subtotal_usd := 0 }

/-- Witness for C10's theorem at a concrete empty-items order. -/
theorem c10_empty_items_accepted_witness :
    emptyItemsOrder.items = [] ∧
    (emptyItemsOrder.validates = true ∧
      create_order emptyStore true emptyItemsOrder =
        ({ emptyStore with
            orders := [(mintId 0, emptyItemsOrder)],
            nextId := 1 },
          CreateResult.created (mintId 0))) :=
  ⟨rfl, c10_empty_items_accepted emptyStore emptyItemsOrder rfl⟩

end Carpets
